import Mathlib

/-!
Verification of the data-preparation and aggregation pipeline of a
mortality-dashboard repository (files `src/data_loader.py` and
`src/transforms.py`).

The pandas code is shallowly embedded over lists of records.  A dataframe
column cell is either a value or the null marker (NaN / pd.NA), modelled by
`Option`.  String operations that pandas applies element-wise
(`str.upper`, `str.strip`, `str.startswith`, `str.zfill`) are re-implemented
over the character list of a `String`, because Lean's own `String.toUpper`
and friends do not reduce inside the kernel; the re-implementations match
the Python semantics on the ASCII data the pipeline compares (codes,
sentinels and the upper-cased literals it tests against).
-/

namespace Mortalidad

/-- Element-wise model of Python `str.upper` (ASCII case mapping). -/
def str_upper (s : String) : String :=
  String.mk (s.data.map Char.toUpper)

/-- Model of Python `str.startswith p` on a string `s`. -/
def str_startsWith (s p : String) : Bool :=
  p.data.isPrefixOf s.data

/-- Model of Python `str.strip`: drop whitespace at both ends. -/
def str_strip (s : String) : String :=
  String.mk
    (((s.data.dropWhile Char.isWhitespace).reverse.dropWhile Char.isWhitespace).reverse)

/-- Model of Python `str.zfill width` as used by `pandas.Series.str.zfill`:
if the string is at least `width` characters it is returned unchanged,
otherwise it is left-padded with zeros to `width` characters, the padding
going after a leading sign character. -/
def zfill (width : Nat) (s : String) : String :=
  if width ≤ s.data.length then s
  else
    let pad := List.replicate (width - s.data.length) '0'
    match s.data with
    | '-' :: rest => String.mk ('-' :: (pad ++ rest))
    | '+' :: rest => String.mk ('+' :: (pad ++ rest))
    | cs => String.mk (pad ++ cs)

/-- An exact base-10 value `mant / 10 ^ exp`: the numeric result of
`pd.to_numeric`.  The floats the pipeline meets (whole-valued cells such as
`12.0` and decimal literals such as `"12.5"`) are exactly representable in
this form, which keeps the integer-or-not test decidable. -/
structure Decimal where
  mant : Int
  exp : Nat
deriving DecidableEq, Repr

/-- A raw cell of an input column: null (NaN), an integer, a float (held as
an exact decimal) or a piece of text. -/
inductive CellValue where
  | null : CellValue
  | int (n : Int) : CellValue
  | float (d : Decimal) : CellValue
  | str (s : String) : CellValue
deriving DecidableEq, Repr

/-- Value of a list of decimal digit characters (most significant first). -/
def digitsVal (cs : List Char) : Int :=
  cs.foldl (fun acc c => acc * 10 + ((c.toNat - 48 : Nat) : Int)) 0

/-- Model of the string-parsing half of `pd.to_numeric(..., errors="coerce")`:
an optionally signed decimal literal (`"12"`, `"-3"`, `"12.5"`, `".5"`,
`"12."`), surrounding whitespace ignored; anything else coerces to null.
Scientific notation and inf/nan spellings are outside the model; under it
they coerce to null like any other unparseable text. -/
def parseDecimal (s : String) : Option Decimal :=
  let cs := (str_strip s).data
  let signed : Int × List Char :=
    match cs with
    | '-' :: rest => (-1, rest)
    | '+' :: rest => (1, rest)
    | _ => (1, cs)
  let sgn := signed.1
  let body := signed.2
  let intPart := body.takeWhile Char.isDigit
  let rest := body.dropWhile Char.isDigit
  match rest with
  | [] =>
    if intPart.isEmpty then none
    else some ⟨sgn * digitsVal intPart, 0⟩
  | '.' :: frac =>
    if frac.all Char.isDigit && (!intPart.isEmpty || !frac.isEmpty) then
      some ⟨sgn * (digitsVal intPart * (10 : Int) ^ frac.length + digitsVal frac), frac.length⟩
    else none
  | _ => none

/-- Per-cell model of `pd.to_numeric(series, errors="coerce")`: numeric cells
pass through, text is parsed, anything unparseable (and null) becomes null. -/
def to_numeric_coerce : CellValue → Option Decimal
  | .null => none
  | .int n => some ⟨n, 0⟩
  | .float d => some d
  | .str s => parseDecimal s

/-- Per-cell model of `.astype("Int64")` on the numeric result: null stays
null, an integer-valued number becomes that integer, and a number with a
nonzero fractional part raises (pandas: "cannot safely cast non-equivalent
float64 to int64"), modelled by `Except.error`. -/
def astype_Int64 : Option Decimal → Except String (Option Int)
  | none => .ok none
  | some d =>
    if d.mant % (10 : Int) ^ d.exp == 0 then .ok (some (d.mant / (10 : Int) ^ d.exp))
    else .error "cannot safely cast non-equivalent float64 to int64"

/-- Model of the regex replace `.str.replace(r"\x2e0$", "")`: strip one
trailing ".0" if present. -/
def stripDotZero (s : String) : String :=
  let r := s.data.reverse
  if r.take 2 == ['0', '.'] then String.mk ((r.drop 2).reverse) else s

/-- The source's `if width: normalized = normalized.str.zfill(width)` step:
zero-pad when a truthy width was passed (Python `0` and `None` are falsy). -/
def apply_zfill (width : Option Nat) (s : Option String) : Option String :=
  match width with
  | some w => if w ≠ 0 then s.map (zfill w) else s
  | none => s

/-- Embedding of `data_loader._normalize_numeric_code` for one cell:
`pd.to_numeric(errors="coerce")`, `.astype("Int64")`, `.astype("string")`,
strip a trailing ".0", then `str.zfill(width)` when `width` is truthy
(`apply_zfill`).  The string conversion of an `Int64` cell is Lean's decimal
rendering `toString`, which matches pandas ("12", "-3", never a ".0").  A
raised pandas exception is the `Except.error` case; string operations skip
the null cell, which `Option.map` models. -/
def _normalize_numeric_code (v : CellValue) (width : Option Nat) : Except String (Option String) := do
  let i ← astype_Int64 (to_numeric_coerce v)
  pure (apply_zfill width (i.map (fun n => stripDotZero (toString n))))

/-- Embedding of `data_loader._clean_string` for one cell. -/
def _clean_string (v : Option String) : Option String :=
  v.map str_strip

/-- Embedding of `data_loader.AGE_CATEGORY_LABELS`, the dict built from the
eleven code ranges; `none` for a code the dict does not key. -/
def AGE_CATEGORY_LABELS (code : Int) : Option String :=
  if 0 ≤ code ∧ code < 5 then some "Mortalidad neonatal"
  else if 5 ≤ code ∧ code < 7 then some "Mortalidad infantil"
  else if 7 ≤ code ∧ code < 9 then some "Primera infancia"
  else if 9 ≤ code ∧ code < 11 then some "Niñez"
  else if code = 11 then some "Adolescencia"
  else if 12 ≤ code ∧ code < 14 then some "Juventud"
  else if 14 ≤ code ∧ code < 17 then some "Adultez temprana"
  else if 17 ≤ code ∧ code < 20 then some "Adultez intermedia"
  else if 20 ≤ code ∧ code < 25 then some "Vejez"
  else if 25 ≤ code ∧ code < 29 then some "Longevidad / Centenarios"
  else if code = 29 then some "Edad desconocida"
  else none

/-- Embedding of `data_loader.DEFAULT_AGE_CATEGORY`. -/
def DEFAULT_AGE_CATEGORY : String := "Edad desconocida"

/-- Embedding of `data_loader._map_categoria_edad`: `none` models a cell
that is null (`pd.isna`) or whose `int(...)` conversion fails; both return
the default label in the source. -/
def _map_categoria_edad (code : Option Int) : String :=
  match code with
  | none => DEFAULT_AGE_CATEGORY
  | some c => (AGE_CATEGORY_LABELS c).getD DEFAULT_AGE_CATEGORY

/-- An enriched row of the dataset `build_full_dataset` yields, restricted to
the columns the aggregation functions of `transforms.py` read.  Columns a
left join or a missing cell can leave null are `Option String`; `sexo_desc`
and `categoria_edad` are filled with a default by the builder and so never
null; `mes` is the month of death, 1-12 per the raw registry. -/
structure Row where
  cod_departamento : Option String
  departamento : Option String
  municipio : Option String
  cod_muerte : Option String
  descripcion_cod_muerte : Option String
  manera_muerte : Option String
  sexo_desc : String
  categoria_edad : String
  mes : Nat
deriving DecidableEq, Repr

/-- Embedding of `transforms.ALL_VALUE`, the "no filter" sentinel. -/
def ALL_VALUE : String := "ALL"

/-- One column filter of `transforms._apply_filters`: the Python body repeats
this pattern once per column (`SEXO_DESC`, `DEPARTAMENTO`,
`categoria_edad`).  A `none` argument is Python `None` (falsy: skip), an
empty string is also falsy (skip), the sentinel `ALL_VALUE` skips, and any
other string keeps exactly the rows whose cell equals it (a null cell never
equals a string, as in pandas). -/
def filterStep (v : Option String) (proj : Row → Option String) (df : List Row) : List Row :=
  match v with
  | none => df
  | some s => if s != "" && s != ALL_VALUE then df.filter (fun r => proj r == some s) else df

/-- Embedding of `transforms._apply_filters`: the three column filters
applied in sequence (sex, then department, then age bracket). -/
def _apply_filters (df : List Row) (sexo departamento categoria_edad : Option String) : List Row :=
  filterStep categoria_edad (fun r => some r.categoria_edad)
    (filterStep departamento (fun r => r.departamento)
      (filterStep sexo (fun r => some r.sexo_desc) df))

/-- Embedding of `transforms._filter_by_manera`: skip on `None`, `""` or the
sentinel, else keep rows whose upper-cased manner of death equals the
upper-cased argument (a null cell stays null under `str.upper` and never
equals a string). -/
def _filter_by_manera (df : List Row) (manera : Option String) : List Row :=
  match manera with
  | none => df
  | some m =>
    if m == "" || m == ALL_VALUE then df
    else df.filter (fun r => r.manera_muerte.map str_upper == some (str_upper m))

/-- Embedding of `transforms.HOMICIDIO_CODE_PREFIX`. -/
def HOMICIDIO_CODE_PREFIX : String := "X95"

/-- Embedding of `transforms._filter_homicidios`: null cause code and manner
are filled with `""`, both are upper-cased, and a row is kept when the
manner equals "HOMICIDIO" or the cause code starts with the prefix "X95". -/
def _filter_homicidios (df : List Row) : List Row :=
  df.filter (fun r =>
    str_upper (r.manera_muerte.getD "") == "HOMICIDIO"
      || str_startsWith (str_upper (r.cod_muerte.getD "")) HOMICIDIO_CODE_PREFIX)

/-- Model of `groupby(key).size()`: one `(key value, row count)` pair per
distinct key value, keys in first-occurrence order.  Each transform re-sorts
this table by an explicit column before returning it; the tie order among
equal sort keys is not part of any verified property (pandas leaves it
unspecified: `sort_values` defaults to an unstable quicksort). -/
def groupSizes {κ : Type} [DecidableEq κ] (key : Row → κ) (rows : List Row) : List (κ × Nat) :=
  (rows.map key).dedup.map (fun k => (k, (rows.map key).count k))

/-- Embedding of `transforms.get_series_mensuales`: filter, group by month,
count, sort by month ascending.  (`MES` is never null in the registry, so
the groupby's default null-key drop has nothing to drop.) -/
def get_series_mensuales (df : List Row)
    (sexo departamento categoria_edad : Option String) : List (Nat × Nat) :=
  let filtered := _apply_filters df sexo departamento categoria_edad
  (groupSizes (fun r => r.mes) filtered).mergeSort (fun a b => a.1 ≤ b.1)

/-- An output row of `get_top10_causas` after its two `fillna` passes. -/
structure CausaRow where
  cod_muerte : String
  descripcion_cod_muerte : String
  muertes : Nat
deriving DecidableEq, Repr

/-- Embedding of `transforms.get_top10_causas`: filter, group by the
(cause code, cause description) pair keeping null keys (`dropna=False`),
count, fill null description and null code with their defaults, sort by
count descending, keep the first 10. -/
def get_top10_causas (df : List Row)
    (sexo departamento categoria_edad : Option String) : List CausaRow :=
  let filtered := _apply_filters df sexo departamento categoria_edad
  let grouped := groupSizes (fun r => (r.cod_muerte, r.descripcion_cod_muerte)) filtered
  let filled := grouped.map (fun g =>
    { cod_muerte := g.1.1.getD "Sin código"
      descripcion_cod_muerte := g.1.2.getD "Descripción no disponible"
      muertes := g.2 : CausaRow })
  (filled.mergeSort (fun a b => b.muertes ≤ a.muertes)).take 10

/-- An output row of the two city rankings after their `fillna` pass on the
department name; the municipality column keeps its `notna`-filtered type. -/
structure CiudadRow where
  municipio : Option String
  departamento : String
  muertes : Nat
deriving DecidableEq, Repr

/-- Embedding of `transforms.get_top5_ciudades_violentas`: filter, keep the
homicide-classified rows, group by (municipality, department) keeping null
keys, count, drop groups with a null municipality, fill null department
names, sort by count descending, keep the first 5. -/
def get_top5_ciudades_violentas (df : List Row)
    (sexo departamento categoria_edad : Option String) : List CiudadRow :=
  let filtered := _apply_filters df sexo departamento categoria_edad
  let violentas := _filter_homicidios filtered
  let grouped := groupSizes (fun r => (r.municipio, r.departamento)) violentas
  let kept := grouped.filter (fun g => g.1.1.isSome)
  let filled := kept.map (fun g =>
    { municipio := g.1.1
      departamento := g.1.2.getD "SIN REGISTRO"
      muertes := g.2 : CiudadRow })
  (filled.mergeSort (fun a b => b.muertes ≤ a.muertes)).take 5

/-- Embedding of `transforms.get_bottom10_ciudades_menos_muertes`: filter,
group by (municipality, department) keeping null keys, count, drop groups
with a null municipality or a zero count, fill null department names, sort
by count ascending, keep the first 10. -/
def get_bottom10_ciudades_menos_muertes (df : List Row)
    (sexo departamento categoria_edad : Option String) : List CiudadRow :=
  let filtered := _apply_filters df sexo departamento categoria_edad
  let grouped := groupSizes (fun r => (r.municipio, r.departamento)) filtered
  let kept := grouped.filter (fun g => g.1.1.isSome && 0 < g.2)
  let filled := kept.map (fun g =>
    { municipio := g.1.1
      departamento := g.1.2.getD "SIN REGISTRO"
      muertes := g.2 : CiudadRow })
  (filled.mergeSort (fun a b => a.muertes ≤ b.muertes)).take 10

/-- Embedding of `transforms.AGE_CATEGORY_ORDER`, the fixed display order of
the eleven age bracket labels. -/
def AGE_CATEGORY_ORDER : List String :=
  ["Mortalidad neonatal",
   "Mortalidad infantil",
   "Primera infancia",
   "Niñez",
   "Adolescencia",
   "Juventud",
   "Adultez temprana",
   "Adultez intermedia",
   "Vejez",
   "Longevidad / Centenarios",
   "Edad desconocida"]

/-- A mortality record at the point of the DIVIPOLA join in
`build_full_dataset`, restricted to the columns that join reads and
resolves (the record's other columns ride along unchanged). -/
structure MortRecord where
  cod_dane : Option String
  cod_departamento : Option String
deriving DecidableEq, Repr

/-- A row of the DIVIPOLA catalog after `_select_columns` picked the four
columns the merge brings in (names already renamed to avoid collision). -/
structure DivipolaRecord where
  cod_dane : Option String
  nombre_departamento : Option String
  nombre_municipio : Option String
  cod_departamento : Option String
deriving DecidableEq, Repr

/-- One result row of the left merge, before the conflict on the department
code is resolved: the record's own `COD_DEPARTAMENTO` plus the catalog's
suffixed `COD_DEPARTAMENTO_DIVI`, null when the row found no match. -/
structure JoinedRecord where
  cod_dane : Option String
  cod_departamento : Option String
  departamento : Option String
  municipio : Option String
  cod_departamento_divi : Option String
deriving DecidableEq, Repr

/-- The row after `combine_first` resolved the department code and the
`_DIVI` column was dropped (the struct no longer carries it). -/
structure MergedRecord where
  cod_dane : Option String
  cod_departamento : Option String
  departamento : Option String
  municipio : Option String
deriving DecidableEq, Repr

/-- Model of `pandas.Series.combine_first` for one cell: the first column's
value when present, else the second's. -/
def combine_first (a b : Option String) : Option String :=
  match a with
  | some x => some x
  | none => b

/-- The left merge `mortalidad.merge(divipola_columns, on="COD_DANE",
how="left")` for one mortality record: one joined row per catalog row with
an equal `COD_DANE` (pandas matches null keys to null keys), or a single
row with null catalog columns when none matches. -/
def mergeDivipolaRow (m : MortRecord) (divipola : List DivipolaRecord) : List JoinedRecord :=
  let matched := divipola.filter (fun d => d.cod_dane == m.cod_dane)
  if matched.isEmpty then
    [{ cod_dane := m.cod_dane
       cod_departamento := m.cod_departamento
       departamento := none
       municipio := none
       cod_departamento_divi := none }]
  else
    matched.map (fun d =>
      { cod_dane := m.cod_dane
        cod_departamento := m.cod_departamento
        departamento := d.nombre_departamento
        municipio := d.nombre_municipio
        cod_departamento_divi := d.cod_departamento })

/-- Embedding of the conflict resolution of `build_full_dataset` (the
`combine_first` assignment and the drop of the `_DIVI` columns): the kept
department code prefers the catalog's value. -/
def resolveDepartamento (j : JoinedRecord) : MergedRecord :=
  { cod_dane := j.cod_dane
    cod_departamento := combine_first j.cod_departamento_divi j.cod_departamento
    departamento := j.departamento
    municipio := j.municipio }

/-- The DIVIPOLA join of `build_full_dataset` over the whole mortality
table: left-merge each record, then resolve the department-code conflict
row by row. -/
def mergeAndResolveDivipola (ms : List MortRecord) (divipola : List DivipolaRecord) :
    List MergedRecord :=
  (ms.flatMap (fun m => mergeDivipolaRow m divipola)).map resolveDepartamento

/-- Whether a row cell passes one column filter: the spec's reading of one
argument of `_apply_filters` ("either a sentinel ALL (no-op) or an
exact-match string comparison"), with Python falsy arguments (`None`, `""`)
also skipping. -/
def passes_value_filter (v : Option String) (cell : Option String) : Bool :=
  match v with
  | none => true
  | some s => s == "" || s == ALL_VALUE || cell == some s

/-- Spec-side reading of "equals ... case-insensitively" (ASCII). -/
def eq_case_insensitive (a b : String) : Prop :=
  str_upper a = str_upper b

/-- Spec-side reading of "starts with the prefix ... case-insensitively"
(ASCII). -/
def starts_with_case_insensitive (s p : String) : Prop :=
  str_startsWith (str_upper s) (str_upper p) = true

/-- Scenario row {manner:"HOMICIDIO", cause:"Y09"} of the spec's homicide
classification test (other columns immaterial to the classifier). -/
def fila_homicidio_manera : Row :=
  ⟨none, none, none, some "Y09", none, some "HOMICIDIO", "Masculino", "Juventud", 1⟩

/-- Scenario row {manner:"OTRO", cause:"X95X"}. -/
def fila_homicidio_codigo : Row :=
  ⟨none, none, none, some "X95X", none, some "OTRO", "Masculino", "Juventud", 1⟩

/-- Scenario row {manner:"OTRO", cause:"W00"}. -/
def fila_no_homicidio : Row :=
  ⟨none, none, none, some "W00", none, some "OTRO", "Masculino", "Juventud", 1⟩

/-- A concrete mortality record for exercising the DIVIPOLA join. -/
def registro_ejemplo : MortRecord := ⟨some "05001", some "5"⟩

/-- A one-row DIVIPOLA catalog matching `registro_ejemplo`, carrying the
cleaner two-digit department code. -/
def divipola_ejemplo : List DivipolaRecord :=
  [⟨some "05001", some "ANTIOQUIA", some "MEDELLIN", some "05"⟩]

/-- The joined row `mergeDivipolaRow registro_ejemplo divipola_ejemplo`
produces. -/
def unido_ejemplo : JoinedRecord :=
  ⟨some "05001", some "5", some "ANTIOQUIA", some "MEDELLIN", some "05"⟩

/-! ### Helper lemmas -/

theorem mem_filterStep {r : Row} {v : Option String} {proj : Row → Option String}
    {df : List Row} :
    r ∈ filterStep v proj df ↔ r ∈ df ∧ passes_value_filter v (proj r) = true := by
  cases v with
  | none => simp [filterStep, passes_value_filter]
  | some s =>
    by_cases h1 : s = ""
    · subst h1; simp [filterStep, passes_value_filter]
    · by_cases h2 : s = ALL_VALUE
      · subst h2; simp [filterStep, passes_value_filter]
      · simp [filterStep, passes_value_filter, h1, h2, List.mem_filter]

theorem groupSizes_map_snd_sum {κ : Type} [DecidableEq κ] (key : Row → κ) (rows : List Row) :
    ((groupSizes key rows).map Prod.snd).sum = rows.length := by
  unfold groupSizes
  rw [List.map_map]
  simpa [Function.comp] using List.sum_map_count_dedup_eq_length (rows.map key)

theorem mem_groupSizes {κ : Type} [DecidableEq κ] {key : Row → κ} {rows : List Row}
    {p : κ × Nat} (h : p ∈ groupSizes key rows) :
    (∃ r ∈ rows, key r = p.1) ∧ 0 < p.2 := by
  unfold groupSizes at h
  rcases List.mem_map.mp h with ⟨a, ha, heq⟩
  have h1 : a = p.1 := congrArg Prod.fst heq
  have h2 : (rows.map key).count a = p.2 := congrArg Prod.snd heq
  have hmem : a ∈ rows.map key := List.mem_dedup.mp ha
  constructor
  · obtain ⟨r, hr, hk⟩ := List.mem_map.mp hmem
    exact ⟨r, hr, by rw [hk, h1]⟩
  · rw [← h2]
    exact List.count_pos_iff.mpr hmem

theorem mergeSort_sorted_asc {α : Type} (f : α → Nat) (l : List α) :
    (l.mergeSort fun a b => f a ≤ f b).Pairwise (fun a b => f a ≤ f b) := by
  have h := @List.sorted_mergeSort _ (fun a b => decide (f a ≤ f b))
    (by intro a b c h1 h2; simp only [decide_eq_true_eq] at h1 h2 ⊢; omega)
    (by intro a b; simp only [Bool.or_eq_true, decide_eq_true_eq]; omega) l
  exact h.imp (by intro a b hab; simpa using hab)

theorem mergeSort_sorted_desc {α : Type} (f : α → Nat) (l : List α) :
    (l.mergeSort fun a b => f b ≤ f a).Pairwise (fun a b => f b ≤ f a) := by
  have h := @List.sorted_mergeSort _ (fun a b => decide (f b ≤ f a))
    (by intro a b c h1 h2; simp only [decide_eq_true_eq] at h1 h2 ⊢; omega)
    (by intro a b; simp only [Bool.or_eq_true, decide_eq_true_eq]; omega) l
  exact h.imp (by intro a b hab; simpa using hab)

/-! ### Claim theorems -/

/-- Claim C1: the homicide classifier of `_filter_homicidios` (used by the
top-5-violent-cities view) keeps a row exactly when its manner of death
equals "HOMICIDIO" case-insensitively or its death-cause code starts with
the prefix "X95" case-insensitively (null cells reading as ""); and on the
scenario rows [{manner:"HOMICIDIO", cause:"Y09"}, {manner:"OTRO",
cause:"X95X"}, {manner:"OTRO", cause:"W00"}] exactly the first two
qualify. -/
theorem homicidio_classification :
    (∀ (df : List Row) (r : Row),
      r ∈ _filter_homicidios df ↔
        r ∈ df ∧ (eq_case_insensitive (r.manera_muerte.getD "") "HOMICIDIO"
          ∨ starts_with_case_insensitive (r.cod_muerte.getD "") "X95"))
    ∧ _filter_homicidios [fila_homicidio_manera, fila_homicidio_codigo, fila_no_homicidio]
        = [fila_homicidio_manera, fila_homicidio_codigo] := by
  constructor
  · intro df r
    have h1 : str_upper "HOMICIDIO" = "HOMICIDIO" := rfl
    have h2 : str_upper "X95" = "X95" := rfl
    simp [_filter_homicidios, List.mem_filter, eq_case_insensitive,
      starts_with_case_insensitive, HOMICIDIO_CODE_PREFIX, h1, h2]
  · decide

/-- Claim C2: every age-group code 0-28 gets a non-default bracket label,
code 29 and every code outside 0-29 (such as -1 and 30) get the default
"Edad desconocida", a null or unparseable code gets the default, and every
label `_map_categoria_edad` returns is one of the eleven fixed bracket
labels of `AGE_CATEGORY_ORDER`. -/
theorem classify_age_table_complete :
    (∀ c : Int, 0 ≤ c → c ≤ 29 → c ≠ 29 →
      _map_categoria_edad (some c) ≠ DEFAULT_AGE_CATEGORY)
    ∧ _map_categoria_edad (some 29) = DEFAULT_AGE_CATEGORY
    ∧ _map_categoria_edad (some (-1)) = DEFAULT_AGE_CATEGORY
    ∧ _map_categoria_edad (some 30) = DEFAULT_AGE_CATEGORY
    ∧ _map_categoria_edad none = DEFAULT_AGE_CATEGORY
    ∧ (∀ c : Int, (c < 0 ∨ 29 < c) → _map_categoria_edad (some c) = DEFAULT_AGE_CATEGORY)
    ∧ (∀ co : Option Int, _map_categoria_edad co ∈ AGE_CATEGORY_ORDER) := by
  have hout : ∀ c : Int, (c < 0 ∨ 29 < c) →
      _map_categoria_edad (some c) = DEFAULT_AGE_CATEGORY := by
    intro c hc
    have k1 : ¬(0 ≤ c ∧ c < 5) := by omega
    have k2 : ¬(5 ≤ c ∧ c < 7) := by omega
    have k3 : ¬(7 ≤ c ∧ c < 9) := by omega
    have k4 : ¬(9 ≤ c ∧ c < 11) := by omega
    have k5 : ¬c = 11 := by omega
    have k6 : ¬(12 ≤ c ∧ c < 14) := by omega
    have k7 : ¬(14 ≤ c ∧ c < 17) := by omega
    have k8 : ¬(17 ≤ c ∧ c < 20) := by omega
    have k9 : ¬(20 ≤ c ∧ c < 25) := by omega
    have k10 : ¬(25 ≤ c ∧ c < 29) := by omega
    have k11 : ¬c = 29 := by omega
    simp [_map_categoria_edad, AGE_CATEGORY_LABELS,
      k1, k2, k3, k4, k5, k6, k7, k8, k9, k10, k11, DEFAULT_AGE_CATEGORY]
  refine ⟨?_, by decide, by decide, by decide, rfl, hout, ?_⟩
  · intro c h0 h1 h2
    interval_cases c <;> first | decide | omega
  · intro co
    cases co with
    | none => decide
    | some c =>
      by_cases hr : 0 ≤ c ∧ c ≤ 29
      · obtain ⟨hl, hh⟩ := hr
        interval_cases c <;> decide
      · rw [hout c (by omega)]
        decide

/-- Claim C10: passing `None` (Python falsy) or the empty string as any of
the three `_apply_filters` arguments, or as the `_filter_by_manera`
argument, behaves exactly like passing the "ALL" sentinel: the filter for
that dimension is skipped. -/
theorem none_and_empty_filter_args_act_like_all :
    (∀ (df : List Row) (d c : Option String),
      _apply_filters df none d c = _apply_filters df (some ALL_VALUE) d c
      ∧ _apply_filters df (some "") d c = _apply_filters df (some ALL_VALUE) d c)
    ∧ (∀ (df : List Row) (s c : Option String),
      _apply_filters df s none c = _apply_filters df s (some ALL_VALUE) c
      ∧ _apply_filters df s (some "") c = _apply_filters df s (some ALL_VALUE) c)
    ∧ (∀ (df : List Row) (s d : Option String),
      _apply_filters df s d none = _apply_filters df s d (some ALL_VALUE)
      ∧ _apply_filters df s d (some "") = _apply_filters df s d (some ALL_VALUE))
    ∧ (∀ df : List Row,
      _filter_by_manera df none = df
      ∧ _filter_by_manera df (some "") = df
      ∧ _filter_by_manera df (some ALL_VALUE) = df) := by
  refine ⟨fun df d c => ⟨rfl, rfl⟩, fun df s c => ⟨rfl, rfl⟩,
    fun df s d => ⟨rfl, rfl⟩, fun df => ⟨rfl, rfl, rfl⟩⟩

/-- Claim C5: with no filters applied, the "muertes" counts of the monthly
series sum to the number of rows of the enriched row-set. -/
theorem series_mensuales_unfiltered_sum (df : List Row) :
    ((get_series_mensuales df none none none).map Prod.snd).sum = df.length := by
  have h1 : _apply_filters df none none none = df := rfl
  simp only [get_series_mensuales, h1]
  have hperm :
      List.Perm
        (((groupSizes (fun r => r.mes) df).mergeSort fun a b => a.1 ≤ b.1).map Prod.snd)
        ((groupSizes (fun r => r.mes) df).map Prod.snd) :=
    (List.mergeSort_perm (groupSizes (fun r => r.mes) df) _).map Prod.snd
  rw [hperm.sum_eq]
  exact groupSizes_map_snd_sum _ _

/-- Claim C6: `_apply_filters` with the "ALL" sentinel in all three slots
returns the rows unchanged; with a real (nonempty, non-sentinel) sex value
every surviving row's sex description equals that value exactly; and the
three filters compose by logical AND (membership in the result is
membership in the input plus passing each column filter). -/
theorem apply_filters_sentinel_and_compose :
    (∀ df : List Row,
      _apply_filters df (some ALL_VALUE) (some ALL_VALUE) (some ALL_VALUE) = df)
    ∧ (∀ (df : List Row) (v : String) (d c : Option String) (r : Row),
      v ≠ "" → v ≠ ALL_VALUE → r ∈ _apply_filters df (some v) d c → r.sexo_desc = v)
    ∧ (∀ (df : List Row) (s d c : Option String) (r : Row),
      r ∈ _apply_filters df s d c ↔
        r ∈ df ∧ passes_value_filter s (some r.sexo_desc) = true
          ∧ passes_value_filter d r.departamento = true
          ∧ passes_value_filter c (some r.categoria_edad) = true) := by
  have hmem : ∀ (df : List Row) (s d c : Option String) (r : Row),
      r ∈ _apply_filters df s d c ↔
        r ∈ df ∧ passes_value_filter s (some r.sexo_desc) = true
          ∧ passes_value_filter d r.departamento = true
          ∧ passes_value_filter c (some r.categoria_edad) = true := by
    intro df s d c r
    unfold _apply_filters
    rw [mem_filterStep, mem_filterStep, mem_filterStep]
    tauto
  refine ⟨fun df => rfl, ?_, hmem⟩
  intro df v d c r hv hall hr
  have h := ((hmem df (some v) d c r).mp hr).2.1
  simp only [passes_value_filter, Bool.or_eq_true, beq_iff_eq, Option.some.injEq] at h
  rcases h with (h | h) | h
  · exact absurd h hv
  · exact absurd h hall
  · exact h

/-! ### Normalizer helper lemmas -/

theorem except_ok_bind {α β : Type} (a : α) (f : α → Except String β) :
    (Except.ok a >>= f : Except String β) = f a := rfl

theorem apply_zfill_none (w : Option Nat) : apply_zfill w none = none := by
  cases w with
  | none => rfl
  | some n =>
    show (if n ≠ 0 then none else none) = (none : Option String)
    rw [ite_self]

theorem apply_zfill_some (w : Option Nat) (t : String) :
    ∃ u : String, apply_zfill w (some t) = some u := by
  cases w with
  | none => exact ⟨t, rfl⟩
  | some n =>
    by_cases hn : n ≠ 0
    · refine ⟨zfill n t, ?_⟩
      show (if n ≠ 0 then Option.map (zfill n) (some t) else some t) = some (zfill n t)
      rw [if_pos hn]
      rfl
    · refine ⟨t, ?_⟩
      show (if n ≠ 0 then Option.map (zfill n) (some t) else some t) = some t
      rw [if_neg hn]

theorem normalize_of_astype_ok_none {v : CellValue} (w : Option Nat)
    (h : astype_Int64 (to_numeric_coerce v) = .ok none) :
    _normalize_numeric_code v w = .ok none := by
  simp only [_normalize_numeric_code, h, except_ok_bind]
  simp [apply_zfill_none]
  rfl

theorem normalize_of_astype_ok_some {v : CellValue} (w : Option Nat) {q : Int}
    (h : astype_Int64 (to_numeric_coerce v) = .ok (some q)) :
    ∃ s : String, _normalize_numeric_code v w = .ok (some s) := by
  simp only [_normalize_numeric_code, h, except_ok_bind]
  obtain ⟨u, hu⟩ := apply_zfill_some w (stripDotZero (toString q))
  refine ⟨u, ?_⟩
  simp [hu, pure, Except.pure]

theorem normalize_of_astype_error {v : CellValue} (w : Option Nat) {msg : String}
    (h : astype_Int64 (to_numeric_coerce v) = .error msg) :
    _normalize_numeric_code v w = .error msg := by
  simp only [_normalize_numeric_code, h]
  rfl

theorem astype_of_int_valued {d : Decimal} {n : Int} (hd : d.mant = n * (10 : Int) ^ d.exp) :
    astype_Int64 (some d) = .ok (some n) := by
  have hpow : (10 : Int) ^ d.exp ≠ 0 := by positivity
  simp [astype_Int64, hd, Int.mul_emod_left, Int.mul_ediv_cancel _ hpow]

/-- Claim C3 (counterexample to the claim as stated): on the numeric text
"12.5" — a value that cannot be represented as an integer code — the
normalizer raises (the `astype("Int64")` cast) instead of degrading to the
null marker. -/
theorem normalize_numeric_code_raises_on_fractional :
    _normalize_numeric_code (.str "12.5") (some 5)
      = .error "cannot safely cast non-equivalent float64 to int64" := rfl

/-- Claim C3 (amended): the normalizer never raises on null, unparseable
(non-numeric or empty) or integer-valued input — unparseable and null
values become the null marker and integer-valued ones a string — but a
numeric value whose fractional part is nonzero raises the Int64 cast error
instead of becoming the null marker. -/
theorem normalize_numeric_code_error_behaviour (v : CellValue) (width : Option Nat) :
    (to_numeric_coerce v = none → _normalize_numeric_code v width = .ok none)
    ∧ ∀ d : Decimal, to_numeric_coerce v = some d →
        ((d.mant % (10 : Int) ^ d.exp = 0 →
          ∃ s : String, _normalize_numeric_code v width = .ok (some s))
        ∧ (d.mant % (10 : Int) ^ d.exp ≠ 0 →
          _normalize_numeric_code v width
            = .error "cannot safely cast non-equivalent float64 to int64")) := by
  constructor
  · intro h
    exact normalize_of_astype_ok_none width (by simp [astype_Int64, h])
  · intro d hd
    constructor
    · intro hm
      exact @normalize_of_astype_ok_some v width (d.mant / (10 : Int) ^ d.exp)
        (by simp [astype_Int64, hd, hm])
    · intro hm
      exact normalize_of_astype_error width (by simp [astype_Int64, hd, hm])

/-- Claim C4: with width 5 the normalizer maps the integer 12, the float
12.0 (held as the decimal 120/10) and the text "12" to the same "00012",
and the non-numeric "abc" to the null marker; and in general the output for
a float or a numeric string whose value is the integer n is identical to
the output for the integer n itself, at every width. -/
theorem normalize_numeric_code_representation_independent :
    _normalize_numeric_code (.int 12) (some 5) = .ok (some "00012")
    ∧ _normalize_numeric_code (.float ⟨120, 1⟩) (some 5) = .ok (some "00012")
    ∧ _normalize_numeric_code (.str "12") (some 5) = .ok (some "00012")
    ∧ _normalize_numeric_code (.str "abc") (some 5) = .ok none
    ∧ (∀ (d : Decimal) (n : Int) (w : Option Nat), d.mant = n * (10 : Int) ^ d.exp →
        _normalize_numeric_code (.float d) w = _normalize_numeric_code (.int n) w)
    ∧ (∀ (s : String) (d : Decimal) (n : Int) (w : Option Nat),
        parseDecimal s = some d → d.mant = n * (10 : Int) ^ d.exp →
        _normalize_numeric_code (.str s) w = _normalize_numeric_code (.int n) w) := by
  have hint : ∀ n : Int, astype_Int64 (to_numeric_coerce (.int n)) = .ok (some n) := by
    intro n
    simp [to_numeric_coerce, astype_Int64]
  refine ⟨rfl, rfl, rfl, rfl, ?_, ?_⟩
  · intro d n w hd
    have h1 : astype_Int64 (to_numeric_coerce (.float d)) = .ok (some n) := by
      simpa [to_numeric_coerce] using astype_of_int_valued hd
    simp only [_normalize_numeric_code, h1, hint n]
  · intro s d n w hp hd
    have h1 : astype_Int64 (to_numeric_coerce (.str s)) = .ok (some n) := by
      simpa [to_numeric_coerce, hp] using astype_of_int_valued hd
    simp only [_normalize_numeric_code, h1, hint n]

/-- Claim C7: the top-10-causes view returns at most 10 rows, ordered by
the "muertes" count descending — no row's count is below that of any later
row — for every row-set and filter combination. -/
theorem top10_causas_cap_and_order (df : List Row)
    (sexo departamento categoria_edad : Option String) :
    (get_top10_causas df sexo departamento categoria_edad).length ≤ 10
    ∧ List.Pairwise (fun a b : CausaRow => b.muertes ≤ a.muertes)
        (get_top10_causas df sexo departamento categoria_edad) := by
  constructor
  · simp only [get_top10_causas]
    simp [List.length_take]
  · simp only [get_top10_causas]
    exact List.Pairwise.sublist (List.take_sublist _ _)
      (mergeSort_sorted_desc (fun x : CausaRow => x.muertes) _)

/-- Claim C8: the bottom-10-low-mortality-cities view never outputs a
zero-count group, never outputs a null-municipality group, returns at most
10 rows ordered by count ascending, and every output municipality comes
from some row of the filtered row-set (so a municipality with no matching
mortality rows — e.g. one present only in the division catalog — never
appears). -/
theorem bottom10_ciudades_properties (df : List Row)
    (sexo departamento categoria_edad : Option String) :
    (get_bottom10_ciudades_menos_muertes df sexo departamento categoria_edad).length ≤ 10
    ∧ List.Pairwise (fun a b : CiudadRow => a.muertes ≤ b.muertes)
        (get_bottom10_ciudades_menos_muertes df sexo departamento categoria_edad)
    ∧ ∀ g ∈ get_bottom10_ciudades_menos_muertes df sexo departamento categoria_edad,
        0 < g.muertes ∧ g.municipio ≠ none
        ∧ ∃ r ∈ _apply_filters df sexo departamento categoria_edad,
            r.municipio = g.municipio := by
  refine ⟨?_, ?_, ?_⟩
  · simp only [get_bottom10_ciudades_menos_muertes]
    simp [List.length_take]
  · simp only [get_bottom10_ciudades_menos_muertes]
    exact List.Pairwise.sublist (List.take_sublist _ _)
      (mergeSort_sorted_asc (fun x : CiudadRow => x.muertes) _)
  · intro g hg
    simp only [get_bottom10_ciudades_menos_muertes] at hg
    have hg1 := List.Sublist.mem hg (List.take_sublist 10 _)
    have hg2 := (List.mergeSort_perm _ _).mem_iff.mp hg1
    obtain ⟨p, hp, rfl⟩ := List.mem_map.mp hg2
    obtain ⟨hpg, hpred⟩ := List.mem_filter.mp hp
    simp only [Bool.and_eq_true, Option.isSome_iff_exists, decide_eq_true_eq] at hpred
    obtain ⟨⟨mv, hmv⟩, hpos⟩ := hpred
    obtain ⟨⟨r, hr, hkey⟩, _⟩ := mem_groupSizes hpg
    refine ⟨hpos, by simp [hmv], r, hr, ?_⟩
    have := congrArg Prod.fst hkey
    simpa using this

/-- Claim C9: in the DIVIPOLA join of the dataset build, the resolved
department code of every joined row equals the division catalog's value
when that value is present and otherwise the mortality record's original
department code (coalesce-left); the suffixed catalog column is dropped
from the resolved record. -/
theorem cod_departamento_coalesce (m : MortRecord) (divipola : List DivipolaRecord)
    (j : JoinedRecord) (hj : j ∈ mergeDivipolaRow m divipola) :
    (∀ c : String, j.cod_departamento_divi = some c →
      (resolveDepartamento j).cod_departamento = some c)
    ∧ (j.cod_departamento_divi = none →
      (resolveDepartamento j).cod_departamento = m.cod_departamento) := by
  have hcod : j.cod_departamento = m.cod_departamento := by
    unfold mergeDivipolaRow at hj
    by_cases h : (divipola.filter (fun d => d.cod_dane == m.cod_dane)).isEmpty
    · rw [if_pos h] at hj
      rw [List.mem_singleton] at hj
      subst hj
      rfl
    · rw [if_neg h] at hj
      obtain ⟨d, hd, rfl⟩ := List.mem_map.mp hj
      rfl
  constructor
  · intro c hc
    simp [resolveDepartamento, combine_first, hc]
  · intro hc
    simp [resolveDepartamento, combine_first, hc, hcod]

/-- Witness for C9: at the concrete record and one-row catalog, the catalog
carries department code "05", so the resolved code is "05" (and not the
record's own "5"). -/
theorem cod_departamento_coalesce_witness :
    (resolveDepartamento unido_ejemplo).cod_departamento = some "05" :=
  (cod_departamento_coalesce registro_ejemplo divipola_ejemplo unido_ejemplo
    (by decide)).1 "05" rfl

end Mortalidad
